import Mathlib

/-!
Verification development for the PDF-summarization pipeline
(`src/gemini_summary_async.py` and `src/gemini_summary.py`).

The concurrent script processes a list of PDF files: for each file it calls a
remote summarization service, retrying rate-limit failures (message containing
"429" or "RESOURCE_EXHAUSTED") with a fixed backoff sleep while elapsed time
stays below a fixed budget, and writes the summary text to
`data/llm_summaries/<stem>.md`.  A thread pool bounded by `MAX_WORKERS` runs
the per-item retry loops; a reporter prints one success or failure line per
item as futures complete.

The embedding below models:
  * the retry loop `summarize_pdf_with_retry` as a fuel-indexed recursion over
    an abstract per-attempt processor result and an abstract wall clock;
  * the write of `summarize_pdf` as an update of a functional file system;
  * the batch dispatcher of `main` as a map over the item list, with the
    completion order of `as_completed` abstracted as a permutation of the
    submitted item/trace pairs;
  * the `ThreadPoolExecutor(max_workers=...)` slot discipline as a guarded
    step relation on pool states.
-/

/-- Module-level constant `MAX_WORKERS = 500` of `gemini_summary_async.py`. -/
def MAX_WORKERS : Nat := 500

/-- Module-level constant `RETRY_LIMIT_SECONDS = 120`. -/
def RETRY_LIMIT_SECONDS : Nat := 120

/-- Module-level constant `BACKOFF_SLEEP_SECONDS = 10`. -/
def BACKOFF_SLEEP_SECONDS : Nat := 10

/-- The immutable run configuration of the spec: concurrency bound, retry time
budget and backoff delay, matching the three module constants. -/
structure RunConfiguration where
  maxWorkers : Nat
  retryLimitSeconds : Nat
  backoffSleepSeconds : Nat
deriving Repr, DecidableEq

/-- The configuration the script actually runs with. -/
def defaultConfig : RunConfiguration :=
  { maxWorkers := MAX_WORKERS
    retryLimitSeconds := RETRY_LIMIT_SECONDS
    backoffSleepSeconds := BACKOFF_SLEEP_SECONDS }

/-- Boolean test that the character list `pat` starts the character list given
second (used to build the substring test of the `in` operator). -/
def leadsWith : List Char → List Char → Bool
  | [], _ => true
  | _ :: _, [] => false
  | c :: cs, d :: ds => c == d && leadsWith cs ds

/-- Boolean test that the character list `pat` occurs contiguously somewhere in
the second list: the model of Python's `pat in s` substring operator. -/
def occursIn (pat : List Char) : List Char → Bool
  | [] => leadsWith pat []
  | l@(_ :: rest) => leadsWith pat l || occursIn pat rest

/-- Python `pat in s` on strings. -/
def containsSub (s pat : String) : Bool :=
  occursIn pat.data s.data

/-- The retryable-error classification of `summarize_pdf_with_retry` line 89:
`"429" in msg or "RESOURCE_EXHAUSTED" in msg`. -/
def isRetryableMsg (msg : String) : Bool :=
  containsSub msg "429" || containsSub msg "RESOURCE_EXHAUSTED"

/-- Terminal state of one retry loop: the loop either returned an output-file
path (`success`), re-raised an error (`failure`), or — with too little fuel in
the model — was still running (`diverge`). -/
inductive RetryOutcome (α : Type) where
  | success : α → RetryOutcome α
  | failure : String → RetryOutcome α
  | diverge : RetryOutcome α
deriving Repr, DecidableEq

/-- Full observable record of one run of `summarize_pdf_with_retry`: the
outcome, the number of `summarize_pdf` calls made, and the list of backoff
sleep durations performed, in order. -/
structure RetryTrace (α : Type) where
  outcome : RetryOutcome α
  attempts : Nat
  sleeps : List Nat
deriving Repr, DecidableEq

/-- The retry loop of `summarize_pdf_with_retry` (lines 80-96).  `proc k` is
the result of the `k`-th `summarize_pdf` call (0-indexed); `elapsed k` is the
value of `time.time() - start_time` observed at the failure check after
attempt `k`.  On a failure whose message matches the retryable classification
while `elapsed < retryLimitSeconds`, the loop sleeps `backoffSleepSeconds` and
retries; otherwise it re-raises.  `fuel` bounds the modelled iterations; a
real non-terminating loop shows up as `diverge`. -/
def retryRun (cfg : RunConfiguration) (proc : Nat → Except String α)
    (elapsed : Nat → Nat) : Nat → Nat → RetryTrace α
  | 0, _ => ⟨.diverge, 0, []⟩
  | fuel + 1, k =>
    match proc k with
    | .ok out => ⟨.success out, 1, []⟩
    | .error msg =>
      if isRetryableMsg msg = true ∧ elapsed k < cfg.retryLimitSeconds then
        let r := retryRun cfg proc elapsed fuel (k + 1)
        ⟨r.outcome, r.attempts + 1, cfg.backoffSleepSeconds :: r.sleeps⟩
      else
        ⟨.failure msg, 1, []⟩

/-- `summarize_pdf_with_retry` started at attempt 0. -/
def summarizePdfWithRetry (cfg : RunConfiguration) (proc : Nat → Except String α)
    (elapsed : Nat → Nat) (fuel : Nat) : RetryTrace α :=
  retryRun cfg proc elapsed fuel 0

/-- Functional model of the file system seen by the scripts: a map from path
to file content, `none` when no file exists at the path. -/
def FileSystem : Type := String → Option String

/-- Python `open(path, "w")` followed by `f.write(content)`: the file at
`path` now holds exactly `content`, whatever was there before. -/
def fsWrite (fs : FileSystem) (path content : String) : FileSystem :=
  fun p => if p = path then some content else fs p

/-- Index of the last occurrence of a dot in a character list, if any. -/
def lastDotIdx : List Char → Option Nat
  | [] => none
  | c :: rest =>
    match lastDotIdx rest with
    | some i => some (i + 1)
    | none => if c = '.' then some 0 else none

/-- `pathlib.Path(name).stem`: the name without its final suffix.  pathlib
recognises a suffix only when the last dot sits at index `i` with
`0 < i < len(name) - 1`; otherwise the stem is the whole name. -/
def stemOf (name : String) : String :=
  match lastDotIdx name.data with
  | none => name
  | some i =>
    if 0 < i ∧ i + 1 < name.data.length then ⟨name.data.take i⟩ else name

/-- Line 50: `output_file = output_dir / f"<pdf_stem>.md"`. -/
def outputFileFor (outputDir pdfName : String) : String :=
  outputDir ++ "/" ++ stemOf pdfName ++ ".md"

/-- The response object of `model.generate_content`; only its `text` field is
read.  `none` models an absent/None text. -/
structure GeminiResponse where
  text : Option String
deriving Repr, DecidableEq

/-- Line 68: `summary_text = response.text if (response and response.text)
else ""` — a truthy response with truthy (non-empty) text gives the text,
everything else the empty string. -/
def responseText : Option GeminiResponse → String
  | none => ""
  | some r =>
    match r.text with
    | none => ""
    | some t => if t = "" then "" else t

/-- One run of `summarize_pdf` (lines 44-74) over the file-system model.  The
remote part (upload plus generate_content) is abstracted as `callResult`: an
exception raised before the write leaves the file system unchanged and
propagates; a returned response is reduced to its text and written in mode
"w" to `<outputDir>/<stem>.md`, whose path is returned. -/
def summarizePdfRun (pdfName outputDir : String)
    (callResult : Except String (Option GeminiResponse)) (fs : FileSystem) :
    Except String String × FileSystem :=
  match callResult with
  | .error e => (.error e, fs)
  | .ok resp =>
    (.ok (outputFileFor outputDir pdfName),
      fsWrite fs (outputFileFor outputDir pdfName) (responseText resp))

/-- Item enumeration of the batch path (line 138):
`sorted(pdfs_dir.glob("*.pdf"))` — every name in the pdfs-directory listing
matching `*.pdf`, sorted.  It consults only the pdfs directory, never the
summaries directory. -/
def enumeratePdfItems (pdfDirListing : List String) : List String :=
  (pdfDirListing.filter (fun n => n.endsWith ".pdf")).mergeSort
    (fun a b => decide (a ≤ b))

/-- The retry trace the batch path computes for one submitted item
(`executor.submit(summarize_pdf_with_retry, pdf_path, ...)`, line 147). -/
def itemTrace (cfg : RunConfiguration)
    (procOf : String → Nat → Except String String)
    (elapsedOf : String → Nat → Nat) (fuel : Nat) (it : String) :
    RetryTrace String :=
  summarizePdfWithRetry cfg (procOf it) (elapsedOf it) fuel

/-- The batch dispatcher (lines 144-148): every enumerated item is submitted
exactly once, producing one future per item. -/
def dispatchAll (cfg : RunConfiguration) (items : List String)
    (procOf : String → Nat → Except String String)
    (elapsedOf : String → Nat → Nat) (fuel : Nat) :
    List (String × RetryTrace String) :=
  items.map (fun it => (it, itemTrace cfg procOf elapsedOf fuel it))

/-- The single-item path (`--pdf <name>`, line 131): the same
`summarize_pdf_with_retry` call as the batch path, with no separate retry
logic. -/
def singleItemRun (cfg : RunConfiguration) (proc : Nat → Except String String)
    (elapsed : Nat → Nat) (fuel : Nat) : RetryTrace String :=
  summarizePdfWithRetry cfg proc elapsed fuel

/-- One line printed by the result loop (lines 150-156): a success notice
with the output path, or a failure notice with the error message, each
naming the item. -/
inductive ReportLine where
  | successLine : String → String → ReportLine
  | failureLine : String → String → ReportLine
deriving Repr, DecidableEq

/-- The item a report line is about. -/
def lineItem : ReportLine → String
  | .successLine it _ => it
  | .failureLine it _ => it

/-- Report for one completed future: `fut.result()` returning yields the ✔
line, raising yields the ✖ line.  A future that never completes (`diverge` in
the model) is never yielded by `as_completed`, so it produces no line. -/
def reportOf : String × RetryTrace String → Option ReportLine
  | (it, tr) =>
    match tr.outcome with
    | .success out => some (.successLine it out)
    | .failure msg => some (.failureLine it msg)
    | .diverge => none

/-- The Result Reporter's output (lines 150-156): one line per completed
future.  `completed` is the item/trace pairs in the order `as_completed`
yields their futures — in the theorems it is constrained to be a permutation
of the submitted pairs, since `as_completed` yields every submitted future
exactly once, in completion order. -/
def reporterOutput (completed : List (String × RetryTrace String)) :
    List ReportLine :=
  completed.filterMap reportOf

/-- Total number of `summarize_pdf` calls a batch run performs. -/
def totalAttempts (cfg : RunConfiguration) (items : List String)
    (procOf : String → Nat → Except String String)
    (elapsedOf : String → Nat → Nat) (fuel : Nat) : Nat :=
  (items.map (fun it => (itemTrace cfg procOf elapsedOf fuel it).attempts)).sum

/-- Observable result of one batch (`--pdf all`) run of the parallel script. -/
structure BatchRunResult where
  exitCode : Nat
  emptyNotice : Option String
  processorCalls : Nat
  reports : List ReportLine
deriving Repr, DecidableEq

/-- The batch path of `main` in `gemini_summary_async.py` (lines 137-158).
With no PDF files it prints the notice and calls `sys.exit(0)` before
creating the pool: exit code 0, no Processor calls, no reports.  Otherwise it
submits every item, reports every completed future — exceptions are caught at
lines 155-156 — prints the final line and falls off `main`: exit code 0. -/
def mainBatchAsync (cfg : RunConfiguration) (items : List String)
    (procOf : String → Nat → Except String String)
    (elapsedOf : String → Nat → Nat) (fuel : Nat)
    (completed : List (String × RetryTrace String)) : BatchRunResult :=
  if items.isEmpty then
    { exitCode := 0
      emptyNotice := some "No PDF files found"
      processorCalls := 0
      reports := [] }
  else
    { exitCode := 0
      emptyNotice := none
      processorCalls := totalAttempts cfg items procOf elapsedOf fuel
      reports := reporterOutput completed }

/-- The batch path of the synchronous script `gemini_summary.py` (lines
103-107): `summarize_pdf` is called on each file in order with no try/except,
so the first exception propagates out of `main` and aborts the process with a
non-zero exit; the remaining files are not processed.  `.ok` carries the
outputs of the processed files, `.error` the uncaught exception. -/
def syncMainAll (proc : String → Except String String) :
    List String → Except String (List String)
  | [] => .ok []
  | it :: rest =>
    match proc it with
    | .ok out => (syncMainAll proc rest).map (fun outs => out :: outs)
    | .error e => .error e

/-- State of the `ThreadPoolExecutor` pool: items not yet picked up by a
worker, items whose retry loop a worker is currently running, and items whose
future has completed. -/
structure PoolState where
  pending : List String
  running : List String
  done : List String
deriving Repr, DecidableEq

/-- Semantics of `ThreadPoolExecutor(max_workers=K)` (line 145): a submitted
item starts executing only when fewer than `K` workers are busy — a full pool
makes further items wait — and a busy worker may finish its item, freeing its
slot. -/
inductive PoolStep (K : Nat) : PoolState → PoolState → Prop where
  | start (it : String) (pending running done : List String) :
      running.length < K →
      PoolStep K ⟨it :: pending, running, done⟩ ⟨pending, it :: running, done⟩
  | finish (it : String) (pending r1 r2 done : List String) :
      PoolStep K ⟨pending, r1 ++ it :: r2, done⟩ ⟨pending, r1 ++ r2, it :: done⟩

/-- The initial pool state of a batch run: everything pending. -/
def initialPool (items : List String) : PoolState :=
  ⟨items, [], []⟩

example :
    (summarizePdfWithRetry defaultConfig
      (fun k => if k < 2 then .error "429 rate limited" else .ok "out.md")
      (fun k => 10 * k) 5) =
    ⟨.success "out.md", 3, [10, 10]⟩ := by decide

example : isRetryableMsg "google.api_core 429 RESOURCE_EXHAUSTED" = true := by decide

example : isRetryableMsg "PDF not found" = false := by decide

/-- Step lemma: when the `k`-th `summarize_pdf` call fails with message `msg`,
one iteration of the loop retries (sleeping `backoffSleepSeconds`) exactly when
the message is retryable and elapsed time is strictly below the budget, and
otherwise re-raises. -/
theorem retryRun_error_step (cfg : RunConfiguration) (proc : Nat → Except String α)
    (elapsed : Nat → Nat) (fuel k : Nat) (msg : String)
    (h : proc k = .error msg) :
    retryRun cfg proc elapsed (fuel + 1) k =
      if isRetryableMsg msg = true ∧ elapsed k < cfg.retryLimitSeconds then
        let r := retryRun cfg proc elapsed fuel (k + 1)
        ⟨r.outcome, r.attempts + 1, cfg.backoffSleepSeconds :: r.sleeps⟩
      else
        ⟨.failure msg, 1, []⟩ := by
  simp only [retryRun, h]

/-- Step lemma: a successful `summarize_pdf` call returns immediately. -/
theorem retryRun_ok_step (cfg : RunConfiguration) (proc : Nat → Except String α)
    (elapsed : Nat → Nat) (fuel k : Nat) (out : α)
    (h : proc k = .ok out) :
    retryRun cfg proc elapsed (fuel + 1) k = ⟨.success out, 1, []⟩ := by
  simp only [retryRun, h]

/-- Claim C2: for every item and every error raised by the Processor, the
retry wrapper retries — after sleeping exactly the configured backoff delay —
if and only if the message contains "429" or "RESOURCE_EXHAUSTED" and elapsed
time since the first attempt is strictly below the retry budget; no attempt
counter occurs in the guard, so the attempt count within the budget is
unbounded. -/
theorem retry_iff_retryable_and_within_budget (cfg : RunConfiguration)
    (proc : Nat → Except String α) (elapsed : Nat → Nat) (fuel k : Nat)
    (msg : String) (h : proc k = .error msg) :
    retryRun cfg proc elapsed (fuel + 1) k =
      if isRetryableMsg msg = true ∧ elapsed k < cfg.retryLimitSeconds then
        let r := retryRun cfg proc elapsed fuel (k + 1)
        ⟨r.outcome, r.attempts + 1, cfg.backoffSleepSeconds :: r.sleeps⟩
      else
        ⟨.failure msg, 1, []⟩ :=
  retryRun_error_step cfg proc elapsed fuel k msg h

/-- Witness for C2 at a concrete retryable error. -/
theorem retry_iff_retryable_and_within_budget_wit :
    retryRun defaultConfig (fun _ => (Except.error "rate 429" : Except String String)) (fun _ => 0) (0 + 1) 0 =
      if isRetryableMsg "rate 429" = true ∧ (0 : Nat) < defaultConfig.retryLimitSeconds then
        let r := retryRun defaultConfig (fun _ => (Except.error "rate 429" : Except String String)) (fun _ => 0) 0 (0 + 1)
        ⟨r.outcome, r.attempts + 1, defaultConfig.backoffSleepSeconds :: r.sleeps⟩
      else
        ⟨.failure "rate 429", 1, []⟩ :=
  retry_iff_retryable_and_within_budget defaultConfig
    (fun _ => (Except.error "rate 429" : Except String String)) (fun _ => 0) 0 0 "rate 429" rfl

/-- Claim C4: a non-retryable error on the first call makes the wrapper raise
immediately: one Processor attempt, no backoff sleep, terminal failure with
that error. -/
theorem nonretryable_first_error_fails_once (cfg : RunConfiguration)
    (proc : Nat → Except String α) (elapsed : Nat → Nat) (fuel : Nat)
    (msg : String) (h1 : proc 0 = .error msg)
    (h2 : isRetryableMsg msg = false) (h3 : 1 ≤ fuel) :
    summarizePdfWithRetry cfg proc elapsed fuel = ⟨.failure msg, 1, []⟩ := by
  cases fuel with
  | zero => exact absurd h3 (by decide)
  | succ f =>
    rw [summarizePdfWithRetry, retryRun_error_step cfg proc elapsed f 0 msg h1]
    simp [h2]

/-- Witness for C4 at a concrete non-retryable error. -/
theorem nonretryable_first_error_fails_once_wit :
    summarizePdfWithRetry defaultConfig (fun _ => (Except.error "PDF not found" : Except String String))
      (fun _ => 0) 1 = ⟨.failure "PDF not found", 1, []⟩ :=
  nonretryable_first_error_fails_once defaultConfig
    (fun _ => (Except.error "PDF not found" : Except String String)) (fun _ => 0) 1 "PDF not found"
    rfl (by decide) (by decide)

/-- Termination helper: the loop has left the `diverge` state once the fuel
covers an attempt index whose observed elapsed time reaches the budget. -/
theorem retryRun_not_diverge (cfg : RunConfiguration) (proc : Nat → Except String α)
    (elapsed : Nat → Nat) :
    ∀ fuel k, (∃ d, d < fuel ∧ cfg.retryLimitSeconds ≤ elapsed (k + d)) →
      (retryRun cfg proc elapsed fuel k).outcome ≠ .diverge := by
  intro fuel
  induction fuel with
  | zero =>
    intro k hk
    obtain ⟨d, hd, _⟩ := hk
    exact absurd hd (Nat.not_lt_zero d)
  | succ f ih =>
    intro k hk
    obtain ⟨d, hd, hbudget⟩ := hk
    cases hp : proc k with
    | ok out =>
      rw [retryRun_ok_step cfg proc elapsed f k out hp]
      exact fun hcon => RetryOutcome.noConfusion hcon
    | error msg =>
      rw [retryRun_error_step cfg proc elapsed f k msg hp]
      by_cases hc : isRetryableMsg msg = true ∧ elapsed k < cfg.retryLimitSeconds
      · rw [if_pos hc]
        cases d with
        | zero =>
          rw [Nat.add_zero] at hbudget
          exact absurd hc.2 (Nat.not_lt_of_le hbudget)
        | succ d2 =>
          have harr : k + (d2 + 1) = (k + 1) + d2 := by omega
          rw [harr] at hbudget
          exact ih (k + 1) ⟨d2, Nat.lt_of_succ_lt_succ hd, hbudget⟩
      · rw [if_neg hc]
        exact fun hcon => RetryOutcome.noConfusion hcon

/-- Helper: when every attempt raises, the loop can never return `success`. -/
theorem retryRun_no_success_of_all_error (cfg : RunConfiguration)
    (proc : Nat → Except String α) (elapsed : Nat → Nat)
    (hp : ∀ k, ∃ msg, proc k = .error msg) :
    ∀ fuel k out, (retryRun cfg proc elapsed fuel k).outcome ≠ .success out := by
  intro fuel
  induction fuel with
  | zero =>
    intro k out hcon
    exact RetryOutcome.noConfusion hcon
  | succ f ih =>
    intro k out
    obtain ⟨msg, hm⟩ := hp k
    rw [retryRun_error_step cfg proc elapsed f k msg hm]
    by_cases hc : isRetryableMsg msg = true ∧ elapsed k < cfg.retryLimitSeconds
    · rw [if_pos hc]
      exact ih (k + 1) out
    · rw [if_neg hc]
      exact fun hcon => RetryOutcome.noConfusion hcon

/-- Claim C3: against a Processor that raises a retryable error on every
attempt, the retry loop terminates with a terminal failure — never a success —
provided wall time advances by at least the backoff delay per attempt (the
loop sleeps `backoffSleepSeconds` before each new attempt), because the guard
keeps retrying only while elapsed time is strictly below `retryLimitSeconds`. -/
theorem always_retryable_ends_in_failure (cfg : RunConfiguration)
    (proc : Nat → Except String α) (elapsed : Nat → Nat)
    (hp : ∀ k, ∃ msg, proc k = .error msg ∧ isRetryableMsg msg = true)
    (he : ∀ k, k * cfg.backoffSleepSeconds ≤ elapsed k)
    (hb : 1 ≤ cfg.backoffSleepSeconds) :
    (∃ msg, (summarizePdfWithRetry cfg proc elapsed
        (cfg.retryLimitSeconds + 1)).outcome = .failure msg) ∧
      (∀ out, (summarizePdfWithRetry cfg proc elapsed
        (cfg.retryLimitSeconds + 1)).outcome ≠ .success out) := by
  have hnd : (summarizePdfWithRetry cfg proc elapsed
      (cfg.retryLimitSeconds + 1)).outcome ≠ .diverge := by
    apply retryRun_not_diverge
    refine ⟨cfg.retryLimitSeconds, Nat.lt_succ_self _, ?_⟩
    have h1 : cfg.retryLimitSeconds ≤ cfg.retryLimitSeconds * cfg.backoffSleepSeconds := by
      conv_lhs => rw [← Nat.mul_one cfg.retryLimitSeconds]
      exact Nat.mul_le_mul_left _ hb
    have h2 := he cfg.retryLimitSeconds
    rw [Nat.zero_add]
    exact Nat.le_trans h1 h2
  have hns := retryRun_no_success_of_all_error cfg proc elapsed
    (fun k => (hp k).imp (fun m hm => hm.1)) (cfg.retryLimitSeconds + 1) 0
  refine ⟨?_, hns⟩
  cases hout : (summarizePdfWithRetry cfg proc elapsed
      (cfg.retryLimitSeconds + 1)).outcome with
  | success out => exact absurd hout (hns out)
  | failure m => exact ⟨m, rfl⟩
  | diverge => exact absurd hout hnd

/-- Witness for C3: a Processor that always answers with a 429 error, with the
clock advancing by exactly the backoff per attempt. -/
theorem always_retryable_ends_in_failure_wit :
    (∃ msg, (summarizePdfWithRetry defaultConfig
        (fun _ => (Except.error "429" : Except String String)) (fun k => k * 10)
        (defaultConfig.retryLimitSeconds + 1)).outcome = RetryOutcome.failure msg) ∧
      (∀ out, (summarizePdfWithRetry defaultConfig
        (fun _ => (Except.error "429" : Except String String)) (fun k => k * 10)
        (defaultConfig.retryLimitSeconds + 1)).outcome ≠ RetryOutcome.success out) :=
  always_retryable_ends_in_failure defaultConfig
    (fun _ => (Except.error "429" : Except String String)) (fun k => k * 10)
    (fun _ => ⟨"429", rfl, by decide⟩) (fun _ => Nat.le_refl _) (by decide)

/-- Helper: mapping a name extractor over a `filterMap` whose function always
hits and whose extractor undoes it gives back the original list. -/
theorem filterMap_map_eq_self {α β : Type} (g : α → Option β) (nm : β → α)
    (h : ∀ a, ∃ b, g a = some b ∧ nm b = a) :
    ∀ l : List α, (l.filterMap g).map nm = l := by
  intro l
  induction l with
  | nil => rfl
  | cons a t ih =>
    obtain ⟨b, hb, hnm⟩ := h a
    simp [List.filterMap_cons, hb, hnm, ih]

/-- Helper: a terminal trace produces exactly one report line, naming its
item. -/
theorem reportOf_terminal (it : String) (tr : RetryTrace String)
    (h : tr.outcome ≠ .diverge) :
    ∃ line, reportOf (it, tr) = some line ∧ lineItem line = it := by
  cases hout : tr.outcome with
  | success out =>
    exact ⟨.successLine it out, by simp [reportOf, hout], rfl⟩
  | failure msg =>
    exact ⟨.failureLine it msg, by simp [reportOf, hout], rfl⟩
  | diverge => exact absurd hout h

/-- Helper: with fuel covering the retry budget and a wall clock that has
advanced by at least one backoff delay per completed attempt, no item's retry
loop is still running. -/
theorem itemTrace_not_diverge (cfg : RunConfiguration)
    (procOf : String → Nat → Except String String)
    (elapsedOf : String → Nat → Nat)
    (hterm : ∀ it k, k * cfg.backoffSleepSeconds ≤ elapsedOf it k)
    (hb : 1 ≤ cfg.backoffSleepSeconds) (it : String) :
    (itemTrace cfg procOf elapsedOf (cfg.retryLimitSeconds + 1) it).outcome
      ≠ .diverge := by
  simp only [itemTrace, summarizePdfWithRetry]
  apply retryRun_not_diverge
  refine ⟨cfg.retryLimitSeconds, Nat.lt_succ_self _, ?_⟩
  have h1 : cfg.retryLimitSeconds
      ≤ cfg.retryLimitSeconds * cfg.backoffSleepSeconds := by
    conv_lhs => rw [← Nat.mul_one cfg.retryLimitSeconds]
    exact Nat.mul_le_mul_left _ hb
  rw [Nat.zero_add]
  exact Nat.le_trans h1 (hterm it cfg.retryLimitSeconds)

/-- Helper: the reported item names are a permutation of the submitted
items. -/
theorem reporterOutput_perm_items (cfg : RunConfiguration)
    (items : List String) (procOf : String → Nat → Except String String)
    (elapsedOf : String → Nat → Nat)
    (completed : List (String × RetryTrace String))
    (hcompleted : completed.Perm
      (dispatchAll cfg items procOf elapsedOf (cfg.retryLimitSeconds + 1)))
    (hterm : ∀ it k, k * cfg.backoffSleepSeconds ≤ elapsedOf it k)
    (hb : 1 ≤ cfg.backoffSleepSeconds) :
    ((reporterOutput completed).map lineItem).Perm items := by
  have h1 : (reporterOutput completed).Perm
      ((dispatchAll cfg items procOf elapsedOf
        (cfg.retryLimitSeconds + 1)).filterMap reportOf) :=
    hcompleted.filterMap reportOf
  have h2 : ((dispatchAll cfg items procOf elapsedOf
      (cfg.retryLimitSeconds + 1)).filterMap reportOf).map lineItem = items := by
    simp only [dispatchAll, List.filterMap_map]
    exact filterMap_map_eq_self _ _
      (fun it => reportOf_terminal it _
        (itemTrace_not_diverge cfg procOf elapsedOf hterm hb it)) items
  exact h2 ▸ h1.map lineItem

/-- Claim C1: for every input item set of size N processed by the batch path,
the Result Reporter emits exactly N terminal report lines — the reported item
names are a permutation of the enumerated items, so no item is dropped and
none is reported twice — for any completion order of the futures, assuming
the realistic clock under which every retry loop terminates. -/
theorem reporter_emits_one_outcome_per_item (cfg : RunConfiguration)
    (items : List String) (procOf : String → Nat → Except String String)
    (elapsedOf : String → Nat → Nat)
    (completed : List (String × RetryTrace String))
    (hcompleted : completed.Perm
      (dispatchAll cfg items procOf elapsedOf (cfg.retryLimitSeconds + 1)))
    (hterm : ∀ it k, k * cfg.backoffSleepSeconds ≤ elapsedOf it k)
    (hb : 1 ≤ cfg.backoffSleepSeconds) :
    (reporterOutput completed).length = items.length ∧
      ((reporterOutput completed).map lineItem).Perm items := by
  have hperm := reporterOutput_perm_items cfg items procOf elapsedOf
    completed hcompleted hterm hb
  refine ⟨?_, hperm⟩
  have := hperm.length_eq
  simpa using this

/-- Witness for C1: two items, futures completing in reverse order. -/
theorem reporter_emits_one_outcome_per_item_wit :
    (reporterOutput ((dispatchAll defaultConfig ["a.pdf", "b.pdf"]
        (fun it _ => (Except.ok (it ++ ".md") : Except String String))
        (fun _ k => k * 10)
        (defaultConfig.retryLimitSeconds + 1)).reverse)).length
      = (["a.pdf", "b.pdf"] : List String).length ∧
      ((reporterOutput ((dispatchAll defaultConfig ["a.pdf", "b.pdf"]
        (fun it _ => (Except.ok (it ++ ".md") : Except String String))
        (fun _ k => k * 10)
        (defaultConfig.retryLimitSeconds + 1)).reverse)).map lineItem).Perm
        ["a.pdf", "b.pdf"] :=
  reporter_emits_one_outcome_per_item defaultConfig ["a.pdf", "b.pdf"]
    (fun it _ => (Except.ok (it ++ ".md") : Except String String))
    (fun _ k => k * 10) _ (List.reverse_perm _)
    (fun _ _ => Nat.le_refl _) (by decide)

/-- Counterexample to C5 as stated: in the synchronous script's batch path, a
terminal failure of the first item aborts the whole run — a run-level error
and a non-zero exit — and the second item is never processed, although the
claim requires every run to keep processing remaining items and exit
successfully. -/
theorem sync_item_failure_aborts_run :
    syncMainAll (fun it => if it = "a.pdf"
        then (Except.error "upload failed" : Except String String)
        else Except.ok "ok")
      ["a.pdf", "b.pdf"] = Except.error "upload failed" := by
  rfl

/-- Claim C5 (amended to the parallel script): in `gemini_summary_async.py`,
a terminal item failure never escalates to run-level failure — the run exits
with code 0, the remaining items are still processed and reported (one line
per item), and every failing item gets a failure notice carrying the item and
its error message. -/
theorem async_item_failure_never_aborts (cfg : RunConfiguration)
    (items : List String) (procOf : String → Nat → Except String String)
    (elapsedOf : String → Nat → Nat)
    (completed : List (String × RetryTrace String))
    (hne : items ≠ [])
    (hcompleted : completed.Perm
      (dispatchAll cfg items procOf elapsedOf (cfg.retryLimitSeconds + 1)))
    (hterm : ∀ it k, k * cfg.backoffSleepSeconds ≤ elapsedOf it k)
    (hb : 1 ≤ cfg.backoffSleepSeconds) :
    (mainBatchAsync cfg items procOf elapsedOf (cfg.retryLimitSeconds + 1)
        completed).exitCode = 0 ∧
      (((mainBatchAsync cfg items procOf elapsedOf (cfg.retryLimitSeconds + 1)
        completed).reports).map lineItem).Perm items ∧
      ∀ it msg, it ∈ items →
        (itemTrace cfg procOf elapsedOf (cfg.retryLimitSeconds + 1) it).outcome
          = .failure msg →
        ReportLine.failureLine it msg ∈
          (mainBatchAsync cfg items procOf elapsedOf
            (cfg.retryLimitSeconds + 1) completed).reports := by
  have hoe : items.isEmpty = false := by
    cases items with
    | nil => exact absurd rfl hne
    | cons a t => rfl
  have hrep : (mainBatchAsync cfg items procOf elapsedOf
      (cfg.retryLimitSeconds + 1) completed).reports
      = reporterOutput completed := by
    simp [mainBatchAsync, hoe]
  refine ⟨by simp [mainBatchAsync, hoe], ?_, ?_⟩
  · rw [hrep]
    exact reporterOutput_perm_items cfg items procOf elapsedOf
      completed hcompleted hterm hb
  · intro it msg hmem hfail
    rw [hrep]
    have hpair : (it, itemTrace cfg procOf elapsedOf
        (cfg.retryLimitSeconds + 1) it) ∈
        dispatchAll cfg items procOf elapsedOf (cfg.retryLimitSeconds + 1) :=
      List.mem_map_of_mem _ hmem
    have hpairc : (it, itemTrace cfg procOf elapsedOf
        (cfg.retryLimitSeconds + 1) it) ∈ completed :=
      (hcompleted.mem_iff).mpr hpair
    refine List.mem_filterMap.mpr ⟨_, hpairc, ?_⟩
    simp [reportOf, hfail]

/-- Witness for C5: two items, the first failing with a non-retryable error,
futures completing in reverse order. -/
theorem async_item_failure_never_aborts_wit :
    (mainBatchAsync defaultConfig ["a.pdf", "b.pdf"]
        (fun it _ => if it = "a.pdf"
          then (Except.error "upload failed" : Except String String)
          else Except.ok "ok")
        (fun _ k => k * 10) (defaultConfig.retryLimitSeconds + 1)
        ((dispatchAll defaultConfig ["a.pdf", "b.pdf"]
          (fun it _ => if it = "a.pdf"
            then (Except.error "upload failed" : Except String String)
            else Except.ok "ok")
          (fun _ k => k * 10)
          (defaultConfig.retryLimitSeconds + 1)).reverse)).exitCode = 0 ∧
      (((mainBatchAsync defaultConfig ["a.pdf", "b.pdf"]
        (fun it _ => if it = "a.pdf"
          then (Except.error "upload failed" : Except String String)
          else Except.ok "ok")
        (fun _ k => k * 10) (defaultConfig.retryLimitSeconds + 1)
        ((dispatchAll defaultConfig ["a.pdf", "b.pdf"]
          (fun it _ => if it = "a.pdf"
            then (Except.error "upload failed" : Except String String)
            else Except.ok "ok")
          (fun _ k => k * 10)
          (defaultConfig.retryLimitSeconds + 1)).reverse)).reports).map
        lineItem).Perm ["a.pdf", "b.pdf"] ∧
      ∀ it msg, it ∈ (["a.pdf", "b.pdf"] : List String) →
        (itemTrace defaultConfig
          (fun it2 _ => if it2 = "a.pdf"
            then (Except.error "upload failed" : Except String String)
            else Except.ok "ok")
          (fun _ k => k * 10) (defaultConfig.retryLimitSeconds + 1) it).outcome
          = .failure msg →
        ReportLine.failureLine it msg ∈
          (mainBatchAsync defaultConfig ["a.pdf", "b.pdf"]
            (fun it2 _ => if it2 = "a.pdf"
              then (Except.error "upload failed" : Except String String)
              else Except.ok "ok")
            (fun _ k => k * 10) (defaultConfig.retryLimitSeconds + 1)
            ((dispatchAll defaultConfig ["a.pdf", "b.pdf"]
              (fun it2 _ => if it2 = "a.pdf"
                then (Except.error "upload failed" : Except String String)
                else Except.ok "ok")
              (fun _ k => k * 10)
              (defaultConfig.retryLimitSeconds + 1)).reverse)).reports :=
  async_item_failure_never_aborts defaultConfig ["a.pdf", "b.pdf"]
    (fun it _ => if it = "a.pdf"
      then (Except.error "upload failed" : Except String String)
      else Except.ok "ok")
    (fun _ k => k * 10) _ (by simp) (List.reverse_perm _)
    (fun _ _ => Nat.le_refl _) (by decide)

/-- Claim C6: with a pool bound of `K` workers, at no reachable point of a
batch run do more than `K` retry loops — hence more than `K` Processor
invocations — execute concurrently: an item starts only when a worker slot is
free, and further items wait. -/
theorem pool_concurrency_bounded (K : Nat) (items : List String)
    (s : PoolState)
    (h : Relation.ReflTransGen (PoolStep K) (initialPool items) s) :
    s.running.length ≤ K := by
  induction h with
  | refl => simp [initialPool]
  | tail hsteps hstep ih =>
    cases hstep with
    | start it pending running done hlt => simpa using hlt
    | finish it pending r1 r2 done =>
      simp only [List.length_append, List.length_cons] at ih ⊢
      omega

/-- Witness for C6: one item running after one start step, under the pool
bound `MAX_WORKERS` of the script. -/
theorem pool_concurrency_bounded_wit :
    (PoolState.mk ["b.pdf"] ["a.pdf"] []).running.length ≤ MAX_WORKERS :=
  pool_concurrency_bounded MAX_WORKERS ["a.pdf", "b.pdf"] _
    (Relation.ReflTransGen.single
      (PoolStep.start "a.pdf" ["b.pdf"] [] [] (by decide)))

/-- Claim C7: the single-item path (`--pdf <name>`, line 131) and the batch
path (`--pdf all`, line 147) of the parallel script apply the same
`summarize_pdf_with_retry` with the same configuration: the trace the batch
dispatcher computes for each item is exactly the trace the single-item path
computes for it — identical classification, backoff and budget, with no
separate retry logic. -/
theorem single_and_batch_same_retry_semantics (cfg : RunConfiguration)
    (items : List String) (procOf : String → Nat → Except String String)
    (elapsedOf : String → Nat → Nat) (fuel : Nat) :
    dispatchAll cfg items procOf elapsedOf fuel =
      items.map (fun it =>
        (it, singleItemRun cfg (procOf it) (elapsedOf it) fuel)) := rfl

/-- Claim C8: with an empty item set the batch run terminates immediately
with the nothing-to-do notice, performs zero Processor calls, reports
nothing, and exits with the success code 0 (line 141 `sys.exit(0)`) rather
than aborting with an error. -/
theorem empty_item_set_noop (cfg : RunConfiguration)
    (procOf : String → Nat → Except String String)
    (elapsedOf : String → Nat → Nat) (fuel : Nat)
    (completed : List (String × RetryTrace String)) :
    mainBatchAsync cfg [] procOf elapsedOf fuel completed =
      { exitCode := 0
        emptyNotice := some "No PDF files found"
        processorCalls := 0
        reports := [] } := rfl

/-- Claim C9: the output path is derived deterministically as
`<summaries_dir>/<stem>.md`; the write uses mode "w", so a pre-existing file
at that path is silently overwritten with the new summary regardless of its
old content; and the dispatcher submits every enumerated item — it never
skips an item because an output already exists. -/
theorem output_path_overwritten_no_skip (pdfName outputDir : String)
    (resp : Option GeminiResponse) (fs : FileSystem) (old : String)
    (hpre : fs (outputFileFor outputDir pdfName) = some old) :
    (summarizePdfRun pdfName outputDir (.ok resp) fs).1
        = .ok (outputDir ++ "/" ++ stemOf pdfName ++ ".md") ∧
      (summarizePdfRun pdfName outputDir (.ok resp) fs).2
        (outputFileFor outputDir pdfName) = some (responseText resp) ∧
      ∀ (cfg : RunConfiguration) (items : List String)
        (procOf : String → Nat → Except String String)
        (elapsedOf : String → Nat → Nat) (fuel : Nat),
        (dispatchAll cfg items procOf elapsedOf fuel).map Prod.fst = items := by
  refine ⟨rfl, ?_, ?_⟩
  · simp [summarizePdfRun, fsWrite]
  · intro cfg items procOf elapsedOf fuel
    simp [dispatchAll, Function.comp_def]

/-- Witness for C9: a concrete pre-existing output file gets overwritten. -/
theorem output_path_overwritten_no_skip_wit :
    (summarizePdfRun "paper.pdf" "summaries"
        (.ok (some ⟨some "new summary"⟩)) (fun _ => some "old")).1
        = .ok ("summaries" ++ "/" ++ stemOf "paper.pdf" ++ ".md") ∧
      (summarizePdfRun "paper.pdf" "summaries"
        (.ok (some ⟨some "new summary"⟩)) (fun _ => some "old")).2
        (outputFileFor "summaries" "paper.pdf")
        = some (responseText (some ⟨some "new summary"⟩)) ∧
      ∀ (cfg : RunConfiguration) (items : List String)
        (procOf : String → Nat → Except String String)
        (elapsedOf : String → Nat → Nat) (fuel : Nat),
        (dispatchAll cfg items procOf elapsedOf fuel).map Prod.fst = items :=
  output_path_overwritten_no_skip "paper.pdf" "summaries"
    (some ⟨some "new summary"⟩) (fun _ => some "old") "old" rfl

/-- Claim C10: when the remote call completes but the response carries no
text (falsy response, `None` text, or empty text), `summarize_pdf` still
returns successfully, writing an empty output file — and at the Outcome
level this success is indistinguishable from any other successful run of the
same item. -/
theorem empty_response_still_success (pdfName outputDir : String)
    (resp : Option GeminiResponse) (fs : FileSystem)
    (hempty : responseText resp = "") :
    (summarizePdfRun pdfName outputDir (.ok resp) fs).1
        = .ok (outputFileFor outputDir pdfName) ∧
      (summarizePdfRun pdfName outputDir (.ok resp) fs).2
        (outputFileFor outputDir pdfName) = some "" ∧
      ∀ resp2 : Option GeminiResponse,
        (summarizePdfRun pdfName outputDir (.ok resp) fs).1
          = (summarizePdfRun pdfName outputDir (.ok resp2) fs).1 := by
  refine ⟨rfl, ?_, fun resp2 => rfl⟩
  simp [summarizePdfRun, fsWrite, hempty]

/-- Witness for C10: a response whose `text` is `None`. -/
theorem empty_response_still_success_wit :
    (summarizePdfRun "paper.pdf" "summaries" (.ok (some ⟨none⟩))
        (fun _ => none)).1
        = .ok (outputFileFor "summaries" "paper.pdf") ∧
      (summarizePdfRun "paper.pdf" "summaries" (.ok (some ⟨none⟩))
        (fun _ => none)).2
        (outputFileFor "summaries" "paper.pdf") = some "" ∧
      ∀ resp2 : Option GeminiResponse,
        (summarizePdfRun "paper.pdf" "summaries" (.ok (some ⟨none⟩))
          (fun _ => none)).1
          = (summarizePdfRun "paper.pdf" "summaries" (.ok resp2)
            (fun _ => none)).1 :=
  empty_response_still_success "paper.pdf" "summaries" (some ⟨none⟩)
    (fun _ => none) rfl
